import Mathlib

/-!
# Verification of the servo-controller core (hardware.py / controller_input.py / web_interface.py)

This file is a shallow embedding, in Lean 4, of the servo/input state engine of
the `controller_new` repository: the joystick-to-angle conversion, the per-channel
hold and global lock policy, the direction classification, the web API handler for
setting a single servo, the sensor-sampler tick, and the controller-event dispatch
loop (PS3 layout).

Modelling conventions:

* Python module-level dictionaries keyed by the channel numbers 0..3
  (`servo_positions`, `servo_directions`, `hold_state`) become total functions
  `ℕ → _`; all writes performed by the code target keys in `SERVO_CHANNELS`,
  so the values at other keys are never written and stand for "no entry".
* Python integers become `ℤ`; sensor floats become `ℚ` (the comparisons the code
  performs on them involve only small decimal literals, which `ℚ` represents
  exactly); the synthetic sensor signal uses `ℝ` and `Real.sin` for `math.sin`.
* `joystick_to_angle` computes `int(((value + 32767) / 65534) * 180)` in float.
  For `value` in `[-32767, 32767]` the float result truncates to the same integer
  as the exact rational `(value+32767)·180/65534` floored: the rational is an
  integer only at `value ∈ {-32767, 0, 32767}` where the float is exact, and
  elsewhere its distance to the nearest integer (≥ 1/32767) dwarfs the float
  rounding error (≲ 1e-13).  It is therefore embedded as integer floor division.
* Cross-module aliasing is modelled faithfully: `from hardware import lock_state`
  copies the current *value* of the flag into the importing module's namespace,
  and a later `global lock_state; lock_state = ...` in `controller_input.py` or
  `web_interface.py` rebinds only that module's own name.  The system state
  therefore carries three separate lock booleans (`hardware`, `controller_input`,
  `web_interface`).  The dictionaries, by contrast, are shared mutable objects:
  an in-place write like `hold_state[0] = ...` is seen by every module.
-/

namespace Controller

/-- Direction labels used for `servo_directions` and the sensor direction
classification (the keys of `config.DIRECTION_ARROWS`). -/
inductive Direction where
  | up
  | down
  | left
  | right
  | neutral
deriving DecidableEq, Repr

/-- `config.SERVO_CHANNELS = [0, 1, 2, 3]`. -/
def SERVO_CHANNELS : List ℕ := [0, 1, 2, 3]

/-- The mutable state of the `hardware` module: the shared dictionaries
`servo_positions`, `servo_directions`, `hold_state`, and `hardware`'s own
module-level `lock_state` flag. -/
structure HwState where
  pos : ℕ → ℤ
  dir : ℕ → Direction
  hold : ℕ → Bool
  lock : Bool

/-- Initial hardware state: `servo_positions = {0: 90, 1: 90, 2: 90, 3: 90}`,
all directions `"neutral"`, all holds `False`, `lock_state = False`. -/
def initHw : HwState :=
  { pos := fun _ => 90
    dir := fun _ => Direction.neutral
    hold := fun _ => false
    lock := false }

/-- `hardware.joystick_to_angle`: `int(((value + 32767) / 65534) * 180)`,
embedded as integer floor division (see the module comment for why this is
exact on the joystick range). -/
def joystick_to_angle (value : ℤ) : ℤ :=
  (value + 32767) * 180 / 65534

/-- `hardware.set_servo_position(channel, angle)`: rejects unknown channels,
computes the direction by comparing the requested angle with the *stored*
previous one (before clamping), clamps the angle with `max(0, min(180, angle))`
and stores angle and direction.  The PWM write itself is an external effect and
does not touch this state. -/
def set_servo_position (s : HwState) (channel : ℕ) (angle : ℤ) : HwState :=
  if channel ∈ SERVO_CHANNELS then
    let d : Direction :=
      if angle > s.pos channel then
        (if channel ∈ [1, 2] then Direction.up else Direction.right)
      else if angle < s.pos channel then
        (if channel ∈ [1, 2] then Direction.down else Direction.left)
      else Direction.neutral
    let a := max 0 (min 180 angle)
    { s with
      pos := Function.update s.pos channel a
      dir := Function.update s.dir channel d }
  else s

/-- `hardware.move_servo(channel, value)`: returns immediately when
`lock_state or hold_state[channel]` (Python's `or` short-circuits, so a true
lock is checked before the dictionary lookup), else converts the joystick value
and delegates to `set_servo_position`. -/
def move_servo (s : HwState) (channel : ℕ) (value : ℤ) : HwState :=
  if s.lock || s.hold channel then s
  else set_servo_position s channel (joystick_to_angle value)

/-- Loop body of `hardware.move_all_servos`: move one channel unless its hold
flag is set. -/
def move_all_step (angle : ℤ) (st : HwState) (channel : ℕ) : HwState :=
  if st.hold channel then st else set_servo_position st channel angle

/-- `hardware.move_all_servos(angle)`: no-op when locked, else iterates over
`SERVO_CHANNELS` in order, skipping channels on hold. -/
def move_all_servos (s : HwState) (angle : ℤ) : HwState :=
  if s.lock then s
  else SERVO_CHANNELS.foldl (move_all_step angle) s

/-- A movement command: the two lock-gated entry points of the store. -/
inductive MoveCmd where
  | fromAxis (channel : ℕ) (value : ℤ)
  | allTo (angle : ℤ)

/-- Apply one movement command. -/
def applyMove (s : HwState) (c : MoveCmd) : HwState :=
  match c with
  | MoveCmd.fromAxis ch v => move_servo s ch v
  | MoveCmd.allTo a => move_all_servos s a

/-- Run a sequence of movement commands. -/
def runMoves (s : HwState) (cs : List MoveCmd) : HwState :=
  cs.foldl applyMove s

/-- A state-store command, as reachable through the code's entry points:
`set_servo_position` (the web API path), `move_servo`, `move_all_servos`.
A `fromAxis` command on a non-configured channel raises `KeyError` in Python
at the `hold_state[channel]` lookup (caught by the event loop) and leaves the
state unchanged; the embedding reaches the same unchanged state through the
channel guard in `set_servo_position`. -/
inductive Cmd where
  | setAngle (channel : ℕ) (angle : ℤ)
  | fromAxis (channel : ℕ) (value : ℤ)
  | allTo (angle : ℤ)

/-- Apply one state-store command. -/
def applyCmd (s : HwState) (c : Cmd) : HwState :=
  match c with
  | Cmd.setAngle ch a => set_servo_position s ch a
  | Cmd.fromAxis ch v => move_servo s ch v
  | Cmd.allTo a => move_all_servos s a

/-- Run a sequence of state-store commands. -/
def runCmds (s : HwState) (cs : List Cmd) : HwState :=
  cs.foldl applyCmd s

/-! ## The whole system: hardware + controller_input + web_interface modules

`controller_input.py` and `web_interface.py` both do
`from hardware import ... lock_state` and later `global lock_state;
lock_state = ...`, which rebinds the *importing* module's name only;
`hardware.move_servo` / `move_all_servos` consult `hardware.lock_state`.
`servo_speed` suffers the same aliasing in `controller_input.py`.  The shared
dictionaries (`servo_positions`, `hold_state`, ...) are mutated in place and so
stay shared across modules. -/

/-- Combined state of the three modules. -/
structure SysState where
  hw : HwState
  /-- `controller_input.lock_state`: that module's own copy of the flag. -/
  ctrlLock : Bool
  /-- `web_interface.lock_state`: that module's own copy of the flag. -/
  webLock : Bool
  /-- `controller_input.servo_speed`: that module's own copy of the speed. -/
  ctrlSpeed : ℚ
  /-- `controller_input.q_pressed`. -/
  q_pressed : Bool
  /-- `controller_input.exit_flag`. -/
  exit_flag : Bool

/-- Initial system state at process start. -/
def initSys : SysState :=
  { hw := initHw
    ctrlLock := false
    webLock := false
    ctrlSpeed := 1
    q_pressed := false
    exit_flag := false }

/-- A controller event as dispatched by `handle_controller_input`: an
`EV_ABS` axis event, or an `EV_KEY` event with `value == 1` (button press).
Events of other types or values fall through the dispatch untouched. -/
inductive Ev where
  | axis (code : ℕ) (value : ℤ)
  | press (code : ℕ)

/-- Toggle one channel's hold flag in place (`hold_state[ch] = not hold_state[ch]`). -/
def toggleHold (s : SysState) (channel : ℕ) : SysState :=
  { s with hw := { s.hw with hold := Function.update s.hw.hold channel (!s.hw.hold channel) } }

/-- The PS3 branch of `handle_controller_input`'s per-event dispatch
(`controller_input.py`, axis codes 0–3 and the button codes of
`PS3_BUTTON_MAPPINGS`).  Unrecognized codes are logged and ignored. -/
def handle_ps3_event (s : SysState) (e : Ev) : SysState :=
  match e with
  | Ev.axis code v =>
    if code = 0 then { s with hw := move_servo s.hw 0 v }
    else if code = 1 then { s with hw := move_servo s.hw 1 v }
    else if code = 2 then { s with hw := move_servo s.hw 2 v }
    else if code = 3 then { s with hw := move_servo s.hw 3 v }
    else s
  | Ev.press code =>
    if code = 304 then toggleHold s 0
    else if code = 305 then toggleHold s 1
    else if code = 308 then toggleHold s 2
    else if code = 307 then toggleHold s 3
    else if code = 294 then { s with ctrlSpeed := max (s.ctrlSpeed - 1/10) (1/10) }
    else if code = 295 then { s with ctrlSpeed := min (s.ctrlSpeed + 1/10) 2 }
    else if code = 298 then { s with hw := move_all_servos s.hw 0 }
    else if code = 299 then { s with hw := move_all_servos s.hw 180 }
    else if code = 288 then s
    else if code = 291 then { s with hw := move_all_servos s.hw 90 }
    else if code = 300 then { s with hw := move_all_servos s.hw 90 }
    else if code = 302 then { s with ctrlLock := !s.ctrlLock }
    else if code = 303 then { s with hw := move_all_servos s.hw 0 }
    else if code = 301 then { s with hw := move_all_servos s.hw 180 }
    else if code = 292 then
      if s.q_pressed then { s with exit_flag := true } else { s with q_pressed := true }
    else s

/-- One iteration of the `read_loop` body: the loop `break`s on `exit_flag`
before dispatching, so once the flag is set later events are not processed. -/
def handle_step (s : SysState) (e : Ev) : SysState :=
  if s.exit_flag then s else handle_ps3_event s e

/-- Run the controller loop over a list of events. -/
def run_events (s : SysState) (es : List Ev) : SysState :=
  es.foldl handle_step s

/-- Run the controller loop over a time-stamped trace.  The dispatch code never
consults the clock, so the timestamps are ignored — exactly as in the source. -/
def run_timed (s : SysState) (tes : List (ℚ × Ev)) : SysState :=
  tes.foldl (fun st te => handle_step st te.2) s

/-- `web_interface.toggle_lock` (POST `/api/servo/lock`): sets or flips
`web_interface`'s own `lock_state` binding. -/
def toggle_lock (s : SysState) (body : Option Bool) : SysState :=
  match body with
  | some b => { s with webLock := b }
  | none => { s with webLock := !s.webLock }

/-! ## The single-servo web API handler -/

/-- Outcome reported by the POST `/api/servo/<channel>` handler. -/
inductive ApiResp where
  | ok (channel : ℕ) (angle : ℤ)
  | invalidChannel
  | missingAngle
deriving DecidableEq, Repr

/-- Whether a response is one of the handler's error responses (HTTP 400). -/
def ApiResp.isError : ApiResp → Bool
  | ApiResp.ok _ _ => false
  | _ => true

/-- `web_interface.control_servo(channel)`: 400 on an unknown channel or a
missing `angle` field, otherwise `set_servo_position` and a success response
echoing the (unclamped) requested angle.  `body` is the request's `angle`
field once parsed to an integer. -/
def control_servo (s : HwState) (channel : ℕ) (body : Option ℤ) : ApiResp × HwState :=
  if channel ∈ SERVO_CHANNELS then
    match body with
    | none => (ApiResp.missingAngle, s)
    | some a => (ApiResp.ok channel a, set_servo_position s channel a)
  else (ApiResp.invalidChannel, s)

/-! ## The sensor sampler (`hardware.update_mpu_data`) -/

/-- A triple of sensor readings (`ℚ` stands for the Python floats; only
exact decimal comparisons are performed on them). -/
structure Vec3 where
  x : ℚ
  y : ℚ
  z : ℚ
deriving DecidableEq, Repr

/-- The `mpu_data` dictionary. -/
structure MpuData where
  accel : Vec3
  gyro : Vec3
  temp : ℚ
  dirX : Direction
  dirY : Direction
  dirZ : Direction
deriving DecidableEq, Repr

/-- Initial `mpu_data`: all readings 0, all directions `"neutral"`. -/
def initMpu : MpuData :=
  { accel := ⟨0, 0, 0⟩
    gyro := ⟨0, 0, 0⟩
    temp := 0
    dirX := Direction.neutral
    dirY := Direction.neutral
    dirZ := Direction.neutral }

/-- x-direction classification with threshold `th`:
`"right" if v > th else "left" if v < -th else "neutral"`. -/
def classify_x (th v : ℚ) : Direction :=
  if v > th then Direction.right else if v < -th then Direction.left else Direction.neutral

/-- y-direction classification with threshold `th`. -/
def classify_y (th v : ℚ) : Direction :=
  if v > th then Direction.up else if v < -th then Direction.down else Direction.neutral

/-- z-direction classification with threshold `th`, centred on gravity
(`9.8 = 49/5`). -/
def classify_z (th v : ℚ) : Direction :=
  if v > 49/5 + th then Direction.up
  else if v < 49/5 - th then Direction.down
  else Direction.neutral

/-- The connected-device branch of `hardware.update_mpu_data`, one tick.
The three device queries (`get_accel_data`, `get_gyro_data`, `get_temp`) may
each raise; `none` stands for a raised query.  The Python code assigns each
result into `mpu_data` as soon as it is obtained, inside one `try` block whose
`except` only logs: a failure aborts the tick at the failing query, keeping
every assignment already made.  The direction fields are recomputed (threshold
`0.5`) only after all three queries succeed. -/
def update_mpu_connected (prev : MpuData) (accelQ gyroQ : Option Vec3)
    (tempQ : Option ℚ) : MpuData :=
  match accelQ with
  | none => prev
  | some a =>
    let s1 := { prev with accel := a }
    match gyroQ with
    | none => s1
    | some g =>
      let s2 := { s1 with gyro := g }
      match tempQ with
      | none => s2
      | some t =>
        { s2 with
          temp := t
          dirX := classify_x (1/2) a.x
          dirY := classify_y (1/2) a.y
          dirZ := classify_z (1/2) a.z }

/-- Simulation-mode synthetic z acceleration at wall-clock time `t`:
`9.8 + math.sin(time.time() * 0.3) * 0.2`. -/
noncomputable def sim_accel_z (t : ℝ) : ℝ :=
  9.8 + Real.sin (t * 0.3) * 0.2

/-- The simulation branch's z-direction classification (threshold `0.3`):
`"up" if z > 9.8 + 0.3 else "down" if z < 9.8 - 0.3 else "neutral"`. -/
noncomputable def classify_z_sim (az : ℝ) : Direction :=
  if az > 9.8 + 0.3 then Direction.up
  else if az < 9.8 - 0.3 then Direction.down
  else Direction.neutral

/-! ## The spec's contract for the axis transform

The specification states the transform as `round(((raw + 32767) / 65534) * 180)`;
this definition follows the spec's words, to be compared with the source's
`joystick_to_angle` above. -/

/-- The axis transform as the specification words it (`round`, nearest
integer). -/
def specAngleFromAxis (raw : ℤ) : ℤ :=
  round ((((raw : ℚ) + 32767) / 65534) * 180)

/-- The angle invariant: every configured channel's stored angle lies in
`[0, 180]`. -/
def AngleInv (s : HwState) : Prop :=
  ∀ ch ∈ SERVO_CHANNELS, 0 ≤ s.pos ch ∧ s.pos ch ≤ 180

/-! ## Theorems -/

theorem set_hold_eq (s : HwState) (ch : ℕ) (a : ℤ) :
    (set_servo_position s ch a).hold = s.hold := by
  unfold set_servo_position
  split <;> rfl

theorem set_lock_eq (s : HwState) (ch : ℕ) (a : ℤ) :
    (set_servo_position s ch a).lock = s.lock := by
  unfold set_servo_position
  split <;> rfl

theorem set_pos_other (s : HwState) (ch : ℕ) (a : ℤ) {c : ℕ} (h : c ≠ ch) :
    (set_servo_position s ch a).pos c = s.pos c := by
  unfold set_servo_position
  split
  · exact Function.update_noteq h _ _
  · rfl

theorem set_pos_self (s : HwState) {ch : ℕ} (a : ℤ) (h : ch ∈ SERVO_CHANNELS) :
    (set_servo_position s ch a).pos ch = max 0 (min 180 a) := by
  unfold set_servo_position
  rw [if_pos h]
  exact Function.update_same _ _ _

theorem clamp_nonneg (a : ℤ) : 0 ≤ max 0 (min 180 a) := le_max_left 0 _

theorem clamp_le (a : ℤ) : max 0 (min 180 a) ≤ 180 :=
  max_le (by norm_num) (min_le_left _ _)

theorem set_pos_cases (s : HwState) (ch : ℕ) (a : ℤ) (c : ℕ) :
    (set_servo_position s ch a).pos c = s.pos c ∨
      (set_servo_position s ch a).pos c = max 0 (min 180 a) := by
  by_cases hc : c = ch
  · subst hc
    by_cases hm : c ∈ SERVO_CHANNELS
    · right; exact set_pos_self s a hm
    · left; unfold set_servo_position; rw [if_neg hm]
  · left; exact set_pos_other s ch a hc

theorem move_all_step_hold_eq (a : ℤ) (st : HwState) (ch : ℕ) :
    (move_all_step a st ch).hold = st.hold := by
  unfold move_all_step
  split
  · rfl
  · exact set_hold_eq _ _ _

theorem move_all_step_pos_other (a : ℤ) (st : HwState) (ch : ℕ) {c : ℕ} (h : c ≠ ch) :
    (move_all_step a st ch).pos c = st.pos c := by
  unfold move_all_step
  split
  · rfl
  · exact set_pos_other _ _ _ h

theorem foldl_move_hold (a : ℤ) (l : List ℕ) :
    ∀ st : HwState, (l.foldl (move_all_step a) st).hold = st.hold := by
  induction l with
  | nil => intro st; rfl
  | cons c rest ih =>
    intro st
    rw [List.foldl_cons, ih, move_all_step_hold_eq]

theorem foldl_move_pos_notmem (a : ℤ) (l : List ℕ) :
    ∀ (st : HwState) (ch : ℕ), ch ∉ l →
      (l.foldl (move_all_step a) st).pos ch = st.pos ch := by
  induction l with
  | nil => intro st ch _; rfl
  | cons c rest ih =>
    intro st ch h
    rw [List.mem_cons, not_or] at h
    rw [List.foldl_cons, ih _ _ h.2, move_all_step_pos_other _ _ _ h.1]

theorem foldl_move_pos_mem (a : ℤ) (l : List ℕ) :
    ∀ (st : HwState) (ch : ℕ), ch ∈ l → l.Nodup → (∀ c ∈ l, c ∈ SERVO_CHANNELS) →
      (l.foldl (move_all_step a) st).pos ch =
        if st.hold ch then st.pos ch else max 0 (min 180 a) := by
  induction l with
  | nil => intro st ch h _ _; exact absurd h (List.not_mem_nil ch)
  | cons c rest ih =>
    intro st ch hmem hnd hcfg
    rw [List.nodup_cons] at hnd
    rw [List.foldl_cons]
    rcases List.mem_cons.mp hmem with hc | hrest
    · subst hc
      rw [foldl_move_pos_notmem _ _ _ _ hnd.1]
      unfold move_all_step
      by_cases hh : st.hold ch = true
      · rw [if_pos hh, if_pos hh]
      · rw [if_neg hh, if_neg hh,
          set_pos_self _ _ (hcfg ch (List.mem_cons_self ch rest))]
    · have hne : ch ≠ c := fun h => hnd.1 (h ▸ hrest)
      rw [ih _ _ hrest hnd.2 (fun c2 hc2 => hcfg c2 (List.mem_cons_of_mem _ hc2)),
        move_all_step_hold_eq, move_all_step_pos_other _ _ _ hne]

theorem move_all_pos (s : HwState) (a : ℤ) (hlock : s.lock = false) {ch : ℕ}
    (hch : ch ∈ SERVO_CHANNELS) :
    (move_all_servos s a).pos ch = if s.hold ch then s.pos ch else max 0 (min 180 a) := by
  unfold move_all_servos
  rw [hlock]
  exact foldl_move_pos_mem a SERVO_CHANNELS s ch hch (by decide) (fun c hc => hc)

theorem move_servo_locked (s : HwState) (h : s.lock = true) (ch : ℕ) (v : ℤ) :
    move_servo s ch v = s := by
  simp [move_servo, h]

theorem move_all_locked (s : HwState) (h : s.lock = true) (a : ℤ) :
    move_all_servos s a = s := by
  simp [move_all_servos, h]

theorem applyMove_locked (s : HwState) (h : s.lock = true) (c : MoveCmd) :
    applyMove s c = s := by
  cases c with
  | fromAxis ch v => exact move_servo_locked s h ch v
  | allTo a => exact move_all_locked s h a

theorem runMoves_locked (s : HwState) (h : s.lock = true) :
    ∀ cs : List MoveCmd, runMoves s cs = s := by
  intro cs
  induction cs with
  | nil => rfl
  | cons c rest ih =>
    show (c :: rest).foldl applyMove s = s
    rw [List.foldl_cons, applyMove_locked s h c]
    exact ih

theorem set_preserves_inv {s : HwState} (h : AngleInv s) (ch : ℕ) (a : ℤ) :
    AngleInv (set_servo_position s ch a) := by
  intro c hc
  rcases set_pos_cases s ch a c with he | he
  · rw [he]; exact h c hc
  · rw [he]; exact ⟨clamp_nonneg a, clamp_le a⟩

theorem move_servo_preserves_inv {s : HwState} (h : AngleInv s) (ch : ℕ) (v : ℤ) :
    AngleInv (move_servo s ch v) := by
  unfold move_servo
  split
  · exact h
  · exact set_preserves_inv h _ _

theorem move_all_step_preserves_inv (a : ℤ) {st : HwState} (h : AngleInv st) (ch : ℕ) :
    AngleInv (move_all_step a st ch) := by
  unfold move_all_step
  split
  · exact h
  · exact set_preserves_inv h _ _

theorem foldl_move_preserves_inv (a : ℤ) (l : List ℕ) :
    ∀ st : HwState, AngleInv st → AngleInv (l.foldl (move_all_step a) st) := by
  induction l with
  | nil => intro st h; exact h
  | cons c rest ih =>
    intro st h
    rw [List.foldl_cons]
    exact ih _ (move_all_step_preserves_inv a h c)

theorem move_all_preserves_inv {s : HwState} (h : AngleInv s) (a : ℤ) :
    AngleInv (move_all_servos s a) := by
  unfold move_all_servos
  split
  · exact h
  · exact foldl_move_preserves_inv a SERVO_CHANNELS s h

theorem applyCmd_preserves_inv {s : HwState} (h : AngleInv s) (c : Cmd) :
    AngleInv (applyCmd s c) := by
  cases c with
  | setAngle ch a => exact set_preserves_inv h ch a
  | fromAxis ch v => exact move_servo_preserves_inv h ch v
  | allTo a => exact move_all_preserves_inv h a

theorem runCmds_preserves_inv :
    ∀ (cs : List Cmd) (s : HwState), AngleInv s → AngleInv (runCmds s cs) := by
  intro cs
  induction cs with
  | nil => intro s h; exact h
  | cons c rest ih =>
    intro s h
    show AngleInv ((c :: rest).foldl applyCmd s)
    rw [List.foldl_cons]
    exact ih _ (applyCmd_preserves_inv h c)

theorem initHw_inv : AngleInv initHw := by
  intro ch _
  exact ⟨by norm_num [initHw], by norm_num [initHw]⟩

/-- Claim C1 (code bug): toggling the lock through the D-pad-Down handler or the
web lock endpoint does not suppress subsequent moves.  Both toggles rebind the
importing module's own `lock_state` name (`controller_input.lock_state`,
`web_interface.lock_state`); `hardware.lock_state`, the flag `move_servo` and
`move_all_servos` actually consult, stays `False`, so from the unlocked initial
state the "locked" D-pad toggle is followed by a joystick event that moves
channel 0 from 90 to 180, and likewise on the web path. -/
theorem C1_lock_toggle_ineffective :
    (handle_step initSys (Ev.press 302)).ctrlLock = true ∧
    (handle_step initSys (Ev.press 302)).hw.lock = false ∧
    initSys.hw.pos 0 = 90 ∧
    (handle_step (handle_step initSys (Ev.press 302)) (Ev.axis 0 32767)).hw.pos 0 = 180 ∧
    (toggle_lock initSys none).webLock = true ∧
    (toggle_lock initSys none).hw.lock = false ∧
    (move_servo (toggle_lock initSys none).hw 0 32767).pos 0 = 180 := by
  decide

/-- Claim C2: while `hardware.lock_state` is true, no sequence of `move_servo`
and `move_all_servos` calls changes any channel's stored angle. -/
theorem C2_lock_suppresses_moves (s : HwState) (h : s.lock = true)
    (cs : List MoveCmd) (ch : ℕ) :
    (runMoves s cs).pos ch = s.pos ch := by
  rw [runMoves_locked s h cs]

/-- Claim C2, witness: a locked initial state is unchanged by a joystick move
followed by a move-all. -/
theorem C2_lock_suppresses_moves_witness :
    (runMoves { initHw with lock := true }
      [MoveCmd.fromAxis 0 32767, MoveCmd.allTo 0]).pos 0 =
      ({ initHw with lock := true } : HwState).pos 0 :=
  C2_lock_suppresses_moves { initHw with lock := true } rfl
    [MoveCmd.fromAxis 0 32767, MoveCmd.allTo 0] 0

/-- Claim C3: a held configured channel is never moved by `move_servo`
(whatever the lock flag's value), and an unlocked `move_all_servos` skips
exactly the held channels: held channels keep their angle while every
non-held configured channel is set to the clamped target. -/
theorem C3_hold_invariant (s : HwState) (ch : ℕ) (v a : ℤ)
    (hch : ch ∈ SERVO_CHANNELS) (hhold : s.hold ch = true) :
    (move_servo s ch v).pos ch = s.pos ch ∧
    (s.lock = false →
      (move_all_servos s a).pos ch = s.pos ch ∧
      ∀ c ∈ SERVO_CHANNELS, s.hold c = false →
        (move_all_servos s a).pos c = max 0 (min 180 a)) := by
  constructor
  · simp [move_servo, hhold]
  · intro hlock
    constructor
    · rw [move_all_pos s a hlock hch, if_pos hhold]
    · intro c hc hcfalse
      rw [move_all_pos s a hlock hc, if_neg (by simp [hcfalse])]

/-- Claim C3, witness: with channel 0 on hold, a joystick move leaves it at 90,
a `move_all_servos 5` leaves it at 90 while channel 1 goes to the clamped 5. -/
theorem C3_hold_invariant_witness :
    (move_servo { initHw with hold := Function.update initHw.hold 0 true } 0 32767).pos 0 =
      ({ initHw with hold := Function.update initHw.hold 0 true } : HwState).pos 0 ∧
    (move_all_servos { initHw with hold := Function.update initHw.hold 0 true } 5).pos 0 =
      ({ initHw with hold := Function.update initHw.hold 0 true } : HwState).pos 0 ∧
    (move_all_servos { initHw with hold := Function.update initHw.hold 0 true } 5).pos 1 =
      max 0 (min 180 5) :=
  ⟨(C3_hold_invariant _ 0 32767 5 (by decide) (by decide)).1,
   ((C3_hold_invariant _ 0 32767 5 (by decide) (by decide)).2 rfl).1,
   ((C3_hold_invariant _ 0 32767 5 (by decide) (by decide)).2 rfl).2 1 (by decide) (by decide)⟩

/-- Claim C4: starting from the initial state, any sequence of
`set_servo_position`, `move_servo` and `move_all_servos` calls, with arbitrary
integer arguments, keeps every configured channel's stored angle in `[0, 180]`. -/
theorem C4_angle_range_invariant (cs : List Cmd) (ch : ℕ) (h : ch ∈ SERVO_CHANNELS) :
    0 ≤ (runCmds initHw cs).pos ch ∧ (runCmds initHw cs).pos ch ≤ 180 :=
  runCmds_preserves_inv cs initHw initHw_inv ch h

/-- Claim C4, witness: an out-of-range direct set followed by a negative
move-all leaves channel 0 inside `[0, 180]`. -/
theorem C4_angle_range_invariant_witness :
    0 ≤ (runCmds initHw [Cmd.setAngle 0 300, Cmd.allTo (-7)]).pos 0 ∧
    (runCmds initHw [Cmd.setAngle 0 300, Cmd.allTo (-7)]).pos 0 ≤ 180 :=
  C4_angle_range_invariant [Cmd.setAngle 0 300, Cmd.allTo (-7)] 0 (by decide)

/-- Claim C5, counterexample: the code truncates where the spec rounds.
At `raw = 183` the exact rescale is `90.502…`; `joystick_to_angle` returns 90
(`int()` truncation) while the spec's `round` formula gives 91. -/
theorem C5_round_counterexample :
    joystick_to_angle 183 = 90 ∧ specAngleFromAxis 183 = 91 ∧
    joystick_to_angle 183 ≠ specAngleFromAxis 183 := by
  have h1 : joystick_to_angle 183 = 90 := by decide
  have h2 : specAngleFromAxis 183 = 91 := by
    rw [specAngleFromAxis, round_eq, Int.floor_eq_iff]
    constructor
    · norm_num
    · norm_num
  exact ⟨h1, h2, by rw [h1, h2]; decide⟩

/-- Claim C5, amended: on the joystick range the code returns the *floor*
(truncation) of `((raw + 32767) / 65534) * 180`, an integer in `[0, 180]`. -/
theorem C5_truncated_rescale (raw : ℤ) (h1 : -32767 ≤ raw) (h2 : raw ≤ 32767) :
    joystick_to_angle raw = ⌊(((raw : ℚ) + 32767) / 65534) * 180⌋ ∧
    0 ≤ joystick_to_angle raw ∧ joystick_to_angle raw ≤ 180 := by
  refine ⟨?_, ?_, ?_⟩
  · have hcast : (((raw : ℚ) + 32767) / 65534) * 180 =
        (((raw + 32767) * 180 : ℤ) : ℚ) / ((65534 : ℕ) : ℚ) := by
      push_cast
      ring
    rw [hcast, Rat.floor_intCast_div_natCast]
    norm_num [joystick_to_angle]
  · unfold joystick_to_angle
    omega
  · unfold joystick_to_angle
    omega

/-- Claim C5, amended, witness at `raw = 12345`. -/
theorem C5_truncated_rescale_witness :
    joystick_to_angle 12345 = ⌊((((12345 : ℤ) : ℚ) + 32767) / 65534) * 180⌋ ∧
    0 ≤ joystick_to_angle 12345 ∧ joystick_to_angle 12345 ≤ 180 :=
  C5_truncated_rescale 12345 (by decide) (by decide)

/-- Claim C6, counterexample: the direction is computed against the stored
(clamped) angle but from the *unclamped* request, so setting channel 0 to 200
twice ends with direction `right`, not `neutral` (200 > the stored 180). -/
theorem C6_idempotence_counterexample :
    (set_servo_position (set_servo_position initHw 0 200) 0 200).dir 0 = Direction.right ∧
    Direction.right ≠ Direction.neutral := by decide

/-- Claim C6, amended: for a configured channel and a request already inside
`[0, 180]`, the second identical `set_servo_position` leaves the direction
`neutral`. -/
theorem C6_idempotent_direction (s : HwState) (ch : ℕ) (a : ℤ)
    (hch : ch ∈ SERVO_CHANNELS) (h0 : 0 ≤ a) (h1 : a ≤ 180) :
    (set_servo_position (set_servo_position s ch a) ch a).dir ch = Direction.neutral := by
  have hpos : (set_servo_position s ch a).pos ch = a := by
    rw [set_pos_self s a hch, min_eq_right h1, max_eq_right h0]
  conv_lhs => rw [set_servo_position]
  rw [if_pos hch]
  simp only [Function.update_same, hpos]
  simp

/-- Claim C6, amended, witness: channel 2 set to 45 twice. -/
theorem C6_idempotent_direction_witness :
    (set_servo_position (set_servo_position initHw 2 45) 2 45).dir 2 = Direction.neutral :=
  C6_idempotent_direction initHw 2 45 (by decide) (by decide) (by decide)

/-- Claim C7, counterexample: an out-of-range angle (300) on a valid channel is
*not* rejected: the handler reports success and the stored angle mutates
(90 → 180, the clamped value). -/
theorem C7_out_of_range_counterexample :
    ¬ (0 ≤ (300 : ℤ) ∧ (300 : ℤ) ≤ 180) ∧
    ((control_servo initHw 0 (some 300)).1).isError = false ∧
    (control_servo initHw 0 (some 300)).2.pos 0 = 180 ∧
    initHw.pos 0 = 90 := by decide

/-- Claim C7, amended: an unknown channel (or a missing angle field) yields an
error response with no state mutation; any integer angle on a configured
channel — in range or not — yields a success response and stores the angle
clamped to `[0, 180]`. -/
theorem C7_validation (s : HwState) (channel : ℕ) (body : Option ℤ) :
    (channel ∉ SERVO_CHANNELS → control_servo s channel body = (ApiResp.invalidChannel, s)) ∧
    (channel ∈ SERVO_CHANNELS → body = none →
      control_servo s channel body = (ApiResp.missingAngle, s)) ∧
    (∀ a : ℤ, channel ∈ SERVO_CHANNELS → body = some a →
      (control_servo s channel body).1 = ApiResp.ok channel a ∧
      (control_servo s channel body).2.pos channel = max 0 (min 180 a)) := by
  refine ⟨fun h => ?_, fun hm hb => ?_, fun a hm hb => ?_⟩
  · unfold control_servo
    rw [if_neg h]
  · unfold control_servo
    rw [if_pos hm, hb]
  · subst hb
    unfold control_servo
    rw [if_pos hm]
    exact ⟨rfl, set_pos_self s a hm⟩

/-- Claim C7, amended, witness: channel 7 is rejected without mutation;
channel 0 with angle 300 stores the clamped angle. -/
theorem C7_validation_witness :
    control_servo initHw 7 (some 90) = (ApiResp.invalidChannel, initHw) ∧
    (control_servo initHw 0 (some 300)).2.pos 0 = max 0 (min 180 300) :=
  ⟨(C7_validation initHw 7 (some 90)).1 (by decide),
   ((C7_validation initHw 0 (some 300)).2.2 300 (by decide) rfl).2⟩

/-- Claim C8, counterexample: when the gyroscope query fails after a successful
accelerometer query, the tick leaves a *partially* updated snapshot — the
accelerometer fields are new while gyroscope and temperature are stale. -/
theorem C8_partial_update_counterexample :
    (update_mpu_connected initMpu (some ⟨1, 1, 1⟩) none (some 25)).accel ≠ initMpu.accel ∧
    (update_mpu_connected initMpu (some ⟨1, 1, 1⟩) none (some 25)).gyro = initMpu.gyro ∧
    (update_mpu_connected initMpu (some ⟨1, 1, 1⟩) none (some 25)).temp = initMpu.temp := by
  decide

/-- Claim C8, amended: each query failure retains that query's own field(s) and
everything assigned after it: an accelerometer failure retains the whole
snapshot; a gyroscope failure retains gyroscope, temperature and directions;
a temperature failure retains temperature and directions. -/
theorem C8_prefix_update (prev : MpuData) (aq gq : Option Vec3) (tq : Option ℚ) :
    (aq = none → update_mpu_connected prev aq gq tq = prev) ∧
    (gq = none →
      (update_mpu_connected prev aq gq tq).gyro = prev.gyro ∧
      (update_mpu_connected prev aq gq tq).temp = prev.temp ∧
      (update_mpu_connected prev aq gq tq).dirX = prev.dirX ∧
      (update_mpu_connected prev aq gq tq).dirY = prev.dirY ∧
      (update_mpu_connected prev aq gq tq).dirZ = prev.dirZ) ∧
    (tq = none →
      (update_mpu_connected prev aq gq tq).temp = prev.temp ∧
      (update_mpu_connected prev aq gq tq).dirX = prev.dirX ∧
      (update_mpu_connected prev aq gq tq).dirY = prev.dirY ∧
      (update_mpu_connected prev aq gq tq).dirZ = prev.dirZ) := by
  rcases aq with _ | a <;> rcases gq with _ | g <;> rcases tq with _ | t <;>
    simp [update_mpu_connected]

/-- Claim C8, amended, witness: a tick whose first query fails retains the
initial snapshot wholesale. -/
theorem C8_prefix_update_witness :
    update_mpu_connected initMpu none none none = initMpu :=
  (C8_prefix_update initMpu none none none).1 rfl

theorem handle_ps3_axis_red (s : SysState) (code : ℕ) (v : ℤ) :
    handle_ps3_event s (Ev.axis code v) =
      (if code = 0 then { s with hw := move_servo s.hw 0 v }
      else if code = 1 then { s with hw := move_servo s.hw 1 v }
      else if code = 2 then { s with hw := move_servo s.hw 2 v }
      else if code = 3 then { s with hw := move_servo s.hw 3 v }
      else s) :=
  rfl

theorem handle_ps3_press_red (s : SysState) (code : ℕ) :
    handle_ps3_event s (Ev.press code) =
      (if code = 304 then toggleHold s 0
      else if code = 305 then toggleHold s 1
      else if code = 308 then toggleHold s 2
      else if code = 307 then toggleHold s 3
      else if code = 294 then { s with ctrlSpeed := max (s.ctrlSpeed - 1/10) (1/10) }
      else if code = 295 then { s with ctrlSpeed := min (s.ctrlSpeed + 1/10) 2 }
      else if code = 298 then { s with hw := move_all_servos s.hw 0 }
      else if code = 299 then { s with hw := move_all_servos s.hw 180 }
      else if code = 288 then s
      else if code = 291 then { s with hw := move_all_servos s.hw 90 }
      else if code = 300 then { s with hw := move_all_servos s.hw 90 }
      else if code = 302 then { s with ctrlLock := !s.ctrlLock }
      else if code = 303 then { s with hw := move_all_servos s.hw 0 }
      else if code = 301 then { s with hw := move_all_servos s.hw 180 }
      else if code = 292 then
        (if s.q_pressed then { s with exit_flag := true } else { s with q_pressed := true })
      else s) :=
  rfl

theorem press_q_mono {s : SysState} (h : s.q_pressed = true) (code : ℕ) :
    (handle_ps3_event s (Ev.press code)).q_pressed = true := by
  rw [handle_ps3_press_red]
  by_cases h304 : code = 304
  · rw [if_pos h304]; exact h
  rw [if_neg h304]
  by_cases h305 : code = 305
  · rw [if_pos h305]; exact h
  rw [if_neg h305]
  by_cases h308 : code = 308
  · rw [if_pos h308]; exact h
  rw [if_neg h308]
  by_cases h307 : code = 307
  · rw [if_pos h307]; exact h
  rw [if_neg h307]
  by_cases h294 : code = 294
  · rw [if_pos h294]; exact h
  rw [if_neg h294]
  by_cases h295 : code = 295
  · rw [if_pos h295]; exact h
  rw [if_neg h295]
  by_cases h298 : code = 298
  · rw [if_pos h298]; exact h
  rw [if_neg h298]
  by_cases h299 : code = 299
  · rw [if_pos h299]; exact h
  rw [if_neg h299]
  by_cases h288 : code = 288
  · rw [if_pos h288]; exact h
  rw [if_neg h288]
  by_cases h291 : code = 291
  · rw [if_pos h291]; exact h
  rw [if_neg h291]
  by_cases h300 : code = 300
  · rw [if_pos h300]; exact h
  rw [if_neg h300]
  by_cases h302 : code = 302
  · rw [if_pos h302]; exact h
  rw [if_neg h302]
  by_cases h303 : code = 303
  · rw [if_pos h303]; exact h
  rw [if_neg h303]
  by_cases h301 : code = 301
  · rw [if_pos h301]; exact h
  rw [if_neg h301]
  by_cases h292 : code = 292
  · rw [if_pos h292, if_pos h]
    exact h
  rw [if_neg h292]
  exact h

theorem axis_q_mono {s : SysState} (h : s.q_pressed = true) (code : ℕ) (v : ℤ) :
    (handle_ps3_event s (Ev.axis code v)).q_pressed = true := by
  rw [handle_ps3_axis_red]
  by_cases h0 : code = 0
  · rw [if_pos h0]; exact h
  rw [if_neg h0]
  by_cases h1 : code = 1
  · rw [if_pos h1]; exact h
  rw [if_neg h1]
  by_cases h2 : code = 2
  · rw [if_pos h2]; exact h
  rw [if_neg h2]
  by_cases h3 : code = 3
  · rw [if_pos h3]; exact h
  rw [if_neg h3]
  exact h

theorem handle_step_q_mono {s : SysState} (h : s.q_pressed = true) (e : Ev) :
    (handle_step s e).q_pressed = true := by
  unfold handle_step
  split
  · exact h
  · cases e with
    | axis code v => exact axis_q_mono h code v
    | press code => exact press_q_mono h code

theorem run_timed_q_mono :
    ∀ (tes : List (ℚ × Ev)) (s : SysState), s.q_pressed = true →
      (run_timed s tes).q_pressed = true := by
  intro tes
  induction tes with
  | nil => intro s h; exact h
  | cons te rest ih =>
    intro s h
    rw [run_timed, List.foldl_cons]
    exact ih (handle_step s te.2) (handle_step_q_mono h te.2)

theorem armed_press_exit_flag {s : SysState} (h : s.q_pressed = true) :
    (handle_step s (Ev.press 292)).exit_flag = true := by
  by_cases hs : s.exit_flag = true
  · unfold handle_step
    rw [if_pos hs]
    exact hs
  · unfold handle_step
    rw [if_neg hs]
    have hred : handle_ps3_event s (Ev.press 292) =
        if s.q_pressed then { s with exit_flag := true } else { s with q_pressed := true } :=
      rfl
    rw [hred, if_pos h]

/-- Claim C9, counterexample: a second qualifying press arriving 10 seconds
after the first — far outside the claimed 3-second window — still sets the
exit flag: the handler keeps no timer at all. -/
theorem C9_no_timeout_counterexample :
    (10 : ℚ) - 0 > 3 ∧
    (run_timed initSys [((0 : ℚ), Ev.press 292), ((10 : ℚ), Ev.press 292)]).exit_flag = true :=
  ⟨by norm_num, rfl⟩

/-- Claim C9, amended: the first qualifying press arms (`q_pressed`) without
exiting; the armed state never disarms — after any further events, a second
qualifying press at *any* later time sets the exit flag. -/
theorem C9_no_disarm (t1 t2 : ℚ) (mid : List (ℚ × Ev)) :
    (run_timed initSys [(t1, Ev.press 292)]).q_pressed = true ∧
    (run_timed initSys [(t1, Ev.press 292)]).exit_flag = false ∧
    (run_timed initSys ((t1, Ev.press 292) :: (mid ++ [(t2, Ev.press 292)]))).exit_flag = true := by
  refine ⟨rfl, rfl, ?_⟩
  have h1 : (handle_step initSys (Ev.press 292)).q_pressed = true := rfl
  rw [run_timed, List.foldl_cons, List.foldl_append, List.foldl_cons, List.foldl_nil]
  exact armed_press_exit_flag (run_timed_q_mono mid (handle_step initSys (Ev.press 292)) h1)

/-- Claim C10: in simulation mode the synthetic z acceleration is
`9.8 + sin(0.3·t)·0.2`, whose deviation from 9.8 never exceeds 0.2 < 0.3, so
the z direction is classified `neutral` at every wall-clock time. -/
theorem C10_sim_z_neutral (t : ℝ) :
    classify_z_sim (sim_accel_z t) = Direction.neutral := by
  have h1 := Real.sin_le_one (t * 0.3)
  have h2 := Real.neg_one_le_sin (t * 0.3)
  have hA : ¬ sim_accel_z t > 9.8 + 0.3 := by
    simp only [sim_accel_z, not_lt]
    nlinarith
  have hB : ¬ sim_accel_z t < 9.8 - 0.3 := by
    simp only [sim_accel_z, not_lt]
    nlinarith
  rw [classify_z_sim, if_neg hA, if_neg hB]

end Controller
